import Mathlib

/-!
Verification of `etabackend/tk/data.py` (timetag/ETAServer).

Shallow embedding of the module `etabackend/tk/data.py`: the `save_data`
helper and the `ETAResult` class (construction/`_inspect_file`,
`_estimate_growth`, mode switching, `_run_eta_evaluation`,
`_update_eta_evaluation`).

The external kernel (`self.eta`) is modelled as an abstract record of
response functions (`Kernel`), and every operation additionally returns the
list of kernel calls it made (`KCall`), so that properties such as "invokes
the kernel exactly once with no resume context" are statements about the
call trace.  Python exceptions are modelled with `Except`; since attribute
assignments performed before a raise persist in Python, the error case
carries the partially mutated state.  Python floats are modelled with exact
rationals, `time.time()` readings are passed in as explicit arguments, and
file sizes sampled by `stat()` are passed in as explicit sample values.
-/

namespace ETA

/-- Equality of `Except` values is decidable when it is on both sides;
used to evaluate the embedded operations on concrete inputs. -/
instance {ε α : Type} [DecidableEq ε] [DecidableEq α] :
    DecidableEq (Except ε α) := fun a b =>
  match a, b with
  | .ok x, .ok y =>
    if h : x = y then isTrue (by rw [h]) else isFalse (by simp [h])
  | .error x, .error y =>
    if h : x = y then isTrue (by rw [h]) else isFalse (by simp [h])
  | .ok _, .error _ => isFalse (by simp)
  | .error _, .ok _ => isFalse (by simp)

/-- Python exceptions that the modelled code can raise. -/
inductive PyError where
  | nameError (n : String)
  | attributeError (n : String)
  | zeroDivisionError
  | notImplementedError
  | valueError (msg : String)
  | kernelError (n : Nat)
  | fuelExhausted
deriving DecidableEq, Repr

/-- The Python value `None`, the return value of `run`/`update`
(`_update_eta_evaluation` returns `None` both on the no-new-data early
return and when it falls off the end). -/
inductive PyValue where
  | none
deriving DecidableEq, Repr

/-- A clip/cut returned by `eta.clip_file`.  Only the attributes the module
reads are modelled (`fseekpoint`, `BytesofRecords`), plus an identity tag so
distinct cuts can be told apart. -/
structure Cut where
  id : Nat
  fseekpoint : Int
  BytesofRecords : Int
deriving DecidableEq, Repr

/-- The opaque resumable kernel context (`self.context`); modelled as a
token. -/
abbrev Context := Nat

/-- The opaque kernel result object passed to `calculate_result`. -/
abbrev KResult := Nat

/-- The two values of the `self.mode` string. -/
inductive Mode where
  | accumulation
  | align
deriving DecidableEq, Repr

/-- One call made to the external kernel `self.eta`.
`clip` records `(modify_clip, read_events, format, wait_timeout)`, with
`format = Option.none` when the keyword was not passed; `runK` records the
cut placed in the `{"timetagger1": cut}` input map and the `resume_task`
argument of `eta.run`. -/
inductive KCall where
  | clip (modify_clip : Option Cut) (read_events : Int) (format : Option Int)
      (wait_timeout : ℚ)
  | runK (cut : Option Cut) (resume_task : Option Context)
deriving DecidableEq, Repr

/-- The external kernel boundary: responses of `eta.clip_file` (a cut, or a
falsy "no new data" sentinel modelled as `Option.none`) and of `eta.run`
(which may raise, modelled by `Except`). -/
structure Kernel where
  clip_file : Option Cut → Int → Option Int → ℚ → Option Cut
  run : Option Cut → Option Context → Except PyError (KResult × Context)

/-- The per-deployment `calculate_result` hook (overridden by a child class;
the base class raises `NotImplementedError`). -/
abbrev CalcResult := KResult → Except PyError (List ℚ × List ℚ)

/-- The base-class `calculate_result` (lines 145-149): always raises
`NotImplementedError`. -/
def base_calculate_result : CalcResult := fun _ => .error .notImplementedError

/-- Model of `np.amax` on a 1-d array: raises `ValueError` on an empty
array, otherwise returns the maximum element. -/
def np_amax (l : List ℚ) : Except PyError ℚ :=
  match l with
  | [] => .error (.valueError ("zero-size array to reduction operation maximum"))
  | x :: xs => .ok (xs.foldl max x)

/-- The mutable attributes of an `ETAResult` instance.  Attributes that do
not exist until first assigned (`growth_rate`, `xdata`, `ydata`,
`max_value`, `y_max`, `lastupdate`) are `Option`s, `Option.none` meaning
"not yet set". -/
structure ETAState where
  mode : Mode
  cut : Option Cut
  context : Option Context
  records_per_cut : Int
  existing_records : Int
  interval : ℚ
  timeout : ℚ
  growth_rate : Option ℚ
  xdata : Option (List ℚ)
  ydata : Option (List ℚ)
  max_value : Option ℚ
  y_max : Option ℚ
  lastupdate : Option ℚ
deriving DecidableEq, Repr

/-- Embeds `set_accumulation_mode` (lines 92-93). -/
def set_accumulation_mode (s : ETAState) : ETAState :=
  { s with mode := .accumulation }

/-- Embeds `set_alignment_mode` (lines 95-96). -/
def set_alignment_mode (s : ETAState) : ETAState :=
  { s with mode := .align }

/-- Embeds `toggle_mode` (lines 98-102); the `event` argument is unused by
the branching. -/
def toggle_mode (s : ETAState) : ETAState :=
  if s.mode = .align then set_accumulation_mode s
  else if s.mode = .accumulation then set_alignment_mode s
  else s

/-- Python `int(q)` applied to a float: truncation toward zero. -/
def pyInt (q : ℚ) : Int :=
  if 0 ≤ q then ⌊q⌋ else ⌈q⌉

/-- Embeds `_estimate_growth` (lines 78-90), with the two `stat()` samples
passed in explicitly: `growth_rate = (file_size_new - file_size_old) /
self.cut.BytesofRecords` (Python true division, exact here) and
`records_per_cut = int(self.growth_rate * self.interval)`. -/
def _estimate_growth (file_size_old file_size_new : Int)
    (BytesofRecords : Int) (interval : ℚ) : Except PyError (ℚ × Int) :=
  if BytesofRecords = 0 then .error .zeroDivisionError
  else
    let growth_rate : ℚ := ((file_size_new - file_size_old : Int) : ℚ) / (BytesofRecords : ℚ)
    .ok (growth_rate, pyInt (growth_rate * interval))

/-- The three file sizes `self.file.stat().st_size` can report during
construction: the two `_estimate_growth` samples and the `_inspect_file`
sample of line 71. -/
structure FileSamples where
  est_old : Int
  est_new : Int
  inspect : Int
deriving DecidableEq, Repr

/-- The tail of `_inspect_file` (lines 70-76): compute `existing_records`
from the current file size, or take `records_per_cut` when growth is
simulated.  Accessing attributes of a `None` cut raises `AttributeError`;
`//` by zero raises `ZeroDivisionError`. -/
def inspect_existing_records (cut : Option Cut) (inspect_size : Int)
    (records_per_cut : Int) (simulate_growth : Bool) : Except PyError Int :=
  if simulate_growth = false then
    match cut with
    | .none => .error (.attributeError ("fseekpoint"))
    | .some c =>
      if c.BytesofRecords = 0 then .error .zeroDivisionError
      else .ok ((inspect_size - c.fseekpoint).fdiv c.BytesofRecords)
  else .ok records_per_cut

/-- Embeds `_inspect_file` (lines 62-76): the initial 1-record clip (with
`format=-1`, `wait_timeout=0`), growth estimation when no `records_per_cut`
was configured, and the computation of `existing_records`.  Returns
`(cut, growth_rate?, records_per_cut, existing_records)`. -/
def _inspect_file (K : Kernel) (sizes : FileSamples)
    (records_per_cut : Option Int) (interval : ℚ) (simulate_growth : Bool) :
    Except PyError (Option Cut × Option ℚ × Int × Int) :=
  let cut := K.clip_file .none 1 (.some (-1)) 0
  match records_per_cut with
  | .none =>
    match cut with
    | .none => .error (.attributeError ("BytesofRecords"))
    | .some c =>
      match _estimate_growth sizes.est_old sizes.est_new c.BytesofRecords interval with
      | .error e => .error e
      | .ok (gr, rpc) =>
        match inspect_existing_records cut sizes.inspect rpc simulate_growth with
        | .error e => .error e
        | .ok er => .ok (cut, .some gr, rpc, er)
  | .some rpc =>
    match inspect_existing_records cut sizes.inspect rpc simulate_growth with
    | .error e => .error e
    | .ok er => .ok (cut, .none, rpc, er)

/-- Embeds `ETAResult.__init__` (lines 30-54): sets accumulation mode, runs
`_inspect_file`, and initializes `self.context = None`. -/
def ETAResult_init (K : Kernel) (sizes : FileSamples)
    (records_per_cut : Option Int) (interval timeout : ℚ)
    (simulate_growth : Bool) : Except PyError ETAState :=
  match _inspect_file K sizes records_per_cut interval simulate_growth with
  | .error e => .error e
  | .ok (cut, gr, rpc, er) =>
    .ok { mode := .accumulation
          cut := cut
          context := .none
          records_per_cut := rpc
          existing_records := er
          interval := interval
          timeout := timeout
          growth_rate := gr
          xdata := .none
          ydata := .none
          max_value := .none
          y_max := .none
          lastupdate := .none }

/-- Embeds `_run_eta_evaluation` (lines 104-118), i.e. `run()`: clips from
the
beginning of the file (`modify_clip=None`) over `self.existing_records`
records with `wait_timeout=0.5`, runs the kernel once with
`resume_task=None`, stores the returned context, and recomputes the result
snapshot (`xdata`/`ydata`, then `lastupdate`, then `max_value`, then
`y_max`).  On a raise, the error carries the attributes mutated so far. -/
def _run_eta_evaluation (K : Kernel) (calculate_result : CalcResult)
    (now : ℚ) (s : ETAState) :
    Except (PyError × ETAState) (ETAState × PyValue) × List KCall :=
  let cut := K.clip_file .none s.existing_records .none (1/2)
  let s1 := { s with cut := cut }
  let calls := [KCall.clip .none s.existing_records .none (1/2),
                KCall.runK cut .none]
  match K.run cut .none with
  | .error e => (.error (e, s1), calls)
  | .ok (result, ctx) =>
    let s2 := { s1 with context := .some ctx }
    match calculate_result result with
    | .error e => (.error (e, s2), calls)
    | .ok (x, y) =>
      let s3 := { s2 with xdata := .some x, ydata := .some y,
                          lastupdate := .some now }
      match np_amax y with
      | .error e => (.error (e, s3), calls)
      | .ok m =>
        (.ok ({ s3 with max_value := .some m, y_max := .some (m * (3/2)) },
              .none), calls)

/-- Embeds `_update_eta_evaluation` (lines 120-143), i.e. `update()`: clips
forward
from `self.cut` over `self.records_per_cut` records with
`wait_timeout=self.timeout`.  A falsy clip result means no new data and the
method returns `None` immediately.  Otherwise the new cut is stored, the
kernel is run with `resume_task = self.context` in accumulation mode and
`None` in align mode, the returned context replaces the stored one, and the
snapshot is recomputed (`xdata`/`ydata`, `max_value`, `y_max`, then
`lastupdate`). -/
def _update_eta_evaluation (K : Kernel) (calculate_result : CalcResult)
    (now : ℚ) (s : ETAState) :
    Except (PyError × ETAState) (ETAState × PyValue) × List KCall :=
  match K.clip_file s.cut s.records_per_cut .none s.timeout with
  | .none =>
    (.ok (s, .none), [KCall.clip s.cut s.records_per_cut .none s.timeout])
  | .some c =>
    let s1 := { s with cut := .some c }
    let context := if s.mode = .accumulation then s.context else .none
    let calls := [KCall.clip s.cut s.records_per_cut .none s.timeout,
                  KCall.runK (.some c) context]
    match K.run (.some c) context with
    | .error e => (.error (e, s1), calls)
    | .ok (result, ctx) =>
      let s2 := { s1 with context := .some ctx }
      match calculate_result result with
      | .error e => (.error (e, s2), calls)
      | .ok (x, y) =>
        let s3 := { s2 with xdata := .some x, ydata := .some y }
        match np_amax y with
        | .error e => (.error (e, s3), calls)
        | .ok m =>
          (.ok ({ s3 with max_value := .some m, y_max := .some (m * (3/2)),
                          lastupdate := .some now }, .none), calls)

/-- The state after an `update()` call, keeping the mutations performed
before a raise (Python attribute assignments persist when a later statement
raises). -/
def update_state (K : Kernel) (calculate_result : CalcResult) (now : ℚ)
    (s : ETAState) : ETAState :=
  match (_update_eta_evaluation K calculate_result now s).1 with
  | .ok (s', _) => s'
  | .error (_, s') => s'

/-- The number of complete records a file of size `file_size` holds past the
initial cut, as computed by `_inspect_file` lines 71-73:
`(file_size - cut.fseekpoint) // cut.BytesofRecords`. -/
def complete_records (file_size : Int) (c : Cut) : Int :=
  (file_size - c.fseekpoint).fdiv c.BytesofRecords

/-- The names bound at module level in `etabackend/tk/data.py`: the imports
of lines 3-7 (`import logging`, `import time`, `import numpy as np`,
`import etabackend.tk.utils`) and the module's own definitions.  `Path` is
not among them — `pathlib` is never imported — and `Path` is not a Python
builtin either. -/
def module_level_names : List String :=
  ["logging", "time", "np", "etabackend", "save_data", "ETAResult"]

/-- Whether a global name resolves in the module (builtins hold no `Path`).
-/
def name_defined (n : String) : Bool :=
  module_level_names.contains n

/-- The filesystem as seen by `save_data`: the set of existing directories
and the set of existing file paths. -/
structure FS where
  dirs : List String
  files : List String
deriving DecidableEq, Repr

/-- Model of `pathlib.Path(...).stem` for an ordinary file name with a
single extension, e.g. `"foo.dat"` ↦ `"foo"`: everything before the last
dot. -/
def path_stem (name : String) : String :=
  let cs := name.toList
  if cs.contains '.' then
    String.mk ((cs.reverse.dropWhile (fun ch => ch ≠ '.')).drop 1).reverse
  else name

/-- The Python format `f"{i:0=3d}"`: the decimal digits of `i` left-padded
with zeros to width 3. -/
def fmt3 (i : Nat) : String :=
  let s := toString i
  if s.length < 3 then String.mk (List.replicate (3 - s.length) '0') ++ s
  else s

/-- The output path built on lines 19 and 22:
`result_path / f"{data_file.stem}_{label}_{file_index:0=3d}.txt"`. -/
def out_name (result_path stem label : String) (i : Nat) : String :=
  result_path ++ "/" ++ stem ++ "_" ++ label ++ "_" ++ fmt3 i ++ ".txt"

/-- The `while ... .exists(): file_index += 1` search of lines 18-20,
starting at index `i`.  The source loop is unbounded; here it carries fuel,
and a fuel of `files.length + 1` always suffices on a finite filesystem
because at most `files.length` indices can be occupied. -/
def find_free_index (files : List String) (result_path stem label : String) :
    Nat → Nat → Option Nat
  | 0, _ => .none
  | fuel + 1, i =>
    if files.contains (out_name result_path stem label i) then
      find_free_index files result_path stem label fuel (i + 1)
    else .some i

/-- The body of `save_data` (lines 13-24) as it would execute if the name
`Path` resolved: make the result directory (`mkdir(parents=True,
exist_ok=True)`), find the smallest free index, and write the file
(`np.savetxt`).  Returns the resulting filesystem together with the written
path (or the raised error). -/
def save_data_body (fs : FS) (data_file result_path label : String) :
    FS × Except PyError String :=
  let stem := path_stem data_file
  let dirs := if fs.dirs.contains result_path then fs.dirs
              else result_path :: fs.dirs
  match find_free_index fs.files result_path stem label (fs.files.length + 1) 0 with
  | .none => ({ fs with dirs := dirs }, .error .fuelExhausted)
  | .some i =>
    let fname := out_name result_path stem label i
    ({ dirs := dirs, files := fname :: fs.files }, .ok fname)

/-- Embeds `save_data` (lines 10-24).  Its first statement, `data_file =
Path(data_file)`, evaluates the global name `Path`; since `Path` is not
defined in the module, a `NameError` is raised before the directory is
created or any file is written (the filesystem comes back unchanged).  Were
`Path` defined, the rest of the body would run as `save_data_body`. -/
def save_data (fs : FS) (xdata ydata : List ℚ)
    (data_file result_path label : String) (header : Option String) :
    FS × Except PyError String :=
  if name_defined ("Path") then save_data_body fs data_file result_path label
  else (fs, .error (.nameError ("Path")))

/-- The state after a `run()` call, keeping the mutations performed before a
raise. -/
def run_state (K : Kernel) (calculate_result : CalcResult) (now : ℚ)
    (s : ETAState) : ETAState :=
  match (_run_eta_evaluation K calculate_result now s).1 with
  | .ok (s', _) => s'
  | .error (_, s') => s'

/-
Concrete sample objects used by the witnesses and counterexamples below:
a 10-byte-per-record file whose inspection clip starts at offset 0, an
instance constructed with `records_per_cut=3`, `interval=0.1`,
`timeout=0.2`, `simulate_growth=False` over a 50-byte file, and kernels
that answer each call deterministically.
-/

/-- The inspection clip: seek offset 0, 10-byte records. -/
def demoCut : Cut := ⟨1, 0, 10⟩

/-- A cut returned for an `update()` poll. -/
def cutB : Cut := ⟨2, 50, 10⟩

/-- A cut returned for a later `update()` poll. -/
def cutB2 : Cut := ⟨3, 80, 10⟩

/-- Kernel used for construction: the 1-record inspection clip succeeds. -/
def initK : Kernel := ⟨fun _ _ _ _ => .some demoCut, fun _ _ => .ok (0, 0)⟩

/-- File-size samples during construction: a 50-byte file. -/
def demoSizes : FileSamples := ⟨0, 0, 50⟩

/-- The state `ETAResult_init initK demoSizes (some 3) 0.1 0.2 false`
produces: five 10-byte records exist, accumulation mode, no context. -/
def s0C : ETAState :=
  { mode := .accumulation
    cut := .some demoCut
    context := .none
    records_per_cut := 3
    existing_records := 5
    interval := 1/10
    timeout := 1/5
    growth_rate := .none
    xdata := .none
    ydata := .none
    max_value := .none
    y_max := .none
    lastupdate := .none }

/-- A concrete `calculate_result` specialization. -/
def calcDemo : CalcResult := fun _ => .ok ([0, 1], [3, 7])

/-- A `calculate_result` specialization producing an empty y-sequence. -/
def calcEmptyY : CalcResult := fun _ => .ok ([], [])

/-- Kernel answering a `run()` call: clip succeeds, evaluation returns
context token 1. -/
def KrunDemo : Kernel := ⟨fun _ _ _ _ => .some demoCut, fun _ _ => .ok (0, 1)⟩

/-- Kernel answering an `update()` poll with new data; evaluation returns
context token 2. -/
def KalignDemo : Kernel := ⟨fun _ _ _ _ => .some cutB, fun _ _ => .ok (0, 2)⟩

/-- Kernel answering a later `update()` poll with new data; evaluation
returns context token 3. -/
def KaccDemo : Kernel := ⟨fun _ _ _ _ => .some cutB2, fun _ _ => .ok (0, 3)⟩

/-- Kernel reporting no new data on every clip request. -/
def KnoneDemo : Kernel := ⟨fun _ _ _ _ => .none, fun _ _ => .ok (0, 0)⟩

/-- Kernel whose evaluation raises. -/
def KerrDemo : Kernel :=
  ⟨fun _ _ _ _ => .some cutB, fun _ _ => .error (.kernelError 5)⟩

/-- The state a successful `run()` with `KrunDemo`/`calcDemo` reaches from
`s0C`. -/
def sRunC : ETAState := run_state KrunDemo calcDemo 1 s0C

/-- The state an align-mode `update()` with `KalignDemo`/`calcDemo` reaches
from `set_alignment_mode sRunC`. -/
def sAlignC : ETAState :=
  update_state KalignDemo calcDemo 2 (set_alignment_mode sRunC)

/-
Auxiliary facts about the fold computing `np.amax`.
-/

/-- The left fold of `max` over a list returns one of its inputs. -/
theorem foldl_max_mem (a : ℚ) (l : List ℚ) : l.foldl max a ∈ a :: l := by
  induction l generalizing a with
  | nil => simp
  | cons b t ih =>
    have h := ih (max a b)
    simp only [List.foldl_cons, List.mem_cons] at h ⊢
    rcases h with h' | h'
    · rcases max_choice a b with hm | hm
      · exact Or.inl (h'.trans hm)
      · exact Or.inr (Or.inl (h'.trans hm))
    · exact Or.inr (Or.inr h')

/-- The left fold of `max` over a list bounds all of its inputs. -/
theorem le_foldl_max (a : ℚ) (l : List ℚ) :
    ∀ y ∈ a :: l, y ≤ l.foldl max a := by
  induction l generalizing a with
  | nil =>
    intro y hy
    rw [List.mem_singleton] at hy
    simp [hy]
  | cons b t ih =>
    intro y hy
    simp only [List.foldl_cons]
    rcases List.mem_cons.mp hy with h' | h'
    · subst h'
      exact le_trans (le_max_left y b)
        (ih (max y b) _ (List.mem_cons_self _ _))
    · rcases List.mem_cons.mp h' with h'' | h''
      · subst h''
        exact le_trans (le_max_right a y)
          (ih (max a y) _ (List.mem_cons_self _ _))
      · exact ih (max a b) _ (List.mem_cons_of_mem _ h'')

/-- A successful `np_amax` returns a member of the list that bounds the
list. -/
theorem np_amax_spec (l : List ℚ) (m : ℚ) (h : np_amax l = .ok m) :
    m ∈ l ∧ ∀ y ∈ l, y ≤ m := by
  cases l with
  | nil => exact absurd h (by simp [np_amax])
  | cons x xs =>
    have hm : xs.foldl max x = m := by simpa [np_amax] using h
    exact hm ▸ ⟨foldl_max_mem x xs, le_foldl_max x xs⟩

/-
Evaluation lemmas: one equation per control path of `_run_eta_evaluation`
and `_update_eta_evaluation`.
-/

/-- The calls `run()` makes, unconditionally: one clip request from the
file start over `existing_records` records with timeout 0.5, then one
kernel evaluation with no resume context. -/
theorem run_eval_calls (K : Kernel) (cres : CalcResult) (now : ℚ)
    (s : ETAState) :
    (_run_eta_evaluation K cres now s).2 =
      [KCall.clip .none s.existing_records .none (1/2),
       KCall.runK (K.clip_file .none s.existing_records .none (1/2)) .none] := by
  rcases hK : K.run (K.clip_file .none s.existing_records .none (1/2)) .none
    with e | ⟨r, ctx⟩
  · simp only [_run_eta_evaluation, hK]
  · rcases hc : cres r with e | ⟨x, y⟩
    · simp only [_run_eta_evaluation, hK, hc]
    · rcases hy : np_amax y with e | m <;>
        simp only [_run_eta_evaluation, hK, hc, hy]

/-- Outcome of `run()` when the kernel evaluation raises. -/
theorem run_eval_kernel_error (K : Kernel) (cres : CalcResult) (now : ℚ)
    (s : ETAState) (e : PyError)
    (hr : K.run (K.clip_file .none s.existing_records .none (1/2)) .none =
      .error e) :
    (_run_eta_evaluation K cres now s).1 =
      .error (e,
        { s with cut := K.clip_file .none s.existing_records .none (1/2) }) := by
  simp only [_run_eta_evaluation, hr]

/-- Outcome of `run()` when `calculate_result` raises. -/
theorem run_eval_calc_error (K : Kernel) (cres : CalcResult) (now : ℚ)
    (s : ETAState) (r : KResult) (ctx : Context) (e : PyError)
    (hr : K.run (K.clip_file .none s.existing_records .none (1/2)) .none =
      .ok (r, ctx))
    (hc : cres r = .error e) :
    (_run_eta_evaluation K cres now s).1 =
      .error (e,
        { s with cut := K.clip_file .none s.existing_records .none (1/2),
                 context := .some ctx }) := by
  simp only [_run_eta_evaluation, hr, hc]

/-- Outcome of `run()` when the derived y-sequence is empty, so `np.amax`
raises: the error carries the state with `xdata`, `ydata` and `lastupdate`
already reassigned but `max_value` and `y_max` untouched. -/
theorem run_eval_amax_error (K : Kernel) (cres : CalcResult) (now : ℚ)
    (s : ETAState) (r : KResult) (ctx : Context) (x y : List ℚ) (e : PyError)
    (hr : K.run (K.clip_file .none s.existing_records .none (1/2)) .none =
      .ok (r, ctx))
    (hc : cres r = .ok (x, y)) (hy : np_amax y = .error e) :
    (_run_eta_evaluation K cres now s).1 =
      .error (e,
        { s with cut := K.clip_file .none s.existing_records .none (1/2),
                 context := .some ctx, xdata := .some x, ydata := .some y,
                 lastupdate := .some now }) := by
  simp only [_run_eta_evaluation, hr, hc, hy]

/-- Outcome of a fully successful `run()`: the stored context is replaced
by the returned one and the whole snapshot is recomputed. -/
theorem run_eval_ok (K : Kernel) (cres : CalcResult) (now : ℚ)
    (s : ETAState) (r : KResult) (ctx : Context) (x y : List ℚ) (m : ℚ)
    (hr : K.run (K.clip_file .none s.existing_records .none (1/2)) .none =
      .ok (r, ctx))
    (hc : cres r = .ok (x, y)) (hy : np_amax y = .ok m) :
    (_run_eta_evaluation K cres now s).1 =
      .ok ({ s with
              cut := K.clip_file .none s.existing_records .none (1/2),
              context := .some ctx, xdata := .some x, ydata := .some y,
              lastupdate := .some now, max_value := .some m,
              y_max := .some (m * (3/2)) }, .none) := by
  simp only [_run_eta_evaluation, hr, hc, hy]

/-- Outcome of `update()` when the cut tracker reports no new data: the
early return of line 128 with the state untouched and no kernel
evaluation. -/
theorem update_eval_none (K : Kernel) (cres : CalcResult) (now : ℚ)
    (s : ETAState)
    (h : K.clip_file s.cut s.records_per_cut .none s.timeout = .none) :
    _update_eta_evaluation K cres now s =
      (.ok (s, .none),
       [KCall.clip s.cut s.records_per_cut .none s.timeout]) := by
  unfold _update_eta_evaluation
  rw [h]

/-- The calls `update()` makes when the cut tracker returns a new cut: the
clip request over `records_per_cut` records with the configured timeout,
then one kernel evaluation whose resume context is the stored context in
accumulation mode and nothing in align mode. -/
theorem update_eval_calls (K : Kernel) (cres : CalcResult) (now : ℚ)
    (s : ETAState) (c : Cut)
    (h : K.clip_file s.cut s.records_per_cut .none s.timeout = .some c) :
    (_update_eta_evaluation K cres now s).2 =
      [KCall.clip s.cut s.records_per_cut .none s.timeout,
       KCall.runK (.some c)
         (if s.mode = .accumulation then s.context else .none)] := by
  rcases hK : K.run (.some c)
      (if s.mode = .accumulation then s.context else .none) with e | ⟨r, ctx⟩
  · simp only [_update_eta_evaluation, h, hK]
  · rcases hc : cres r with e | ⟨x, y⟩
    · simp only [_update_eta_evaluation, h, hK, hc]
    · rcases hy : np_amax y with e | m <;>
        simp only [_update_eta_evaluation, h, hK, hc, hy]

/-- Outcome of `update()` when the kernel evaluation raises: the new cut
was already stored (line 132), nothing else changed. -/
theorem update_eval_kernel_error (K : Kernel) (cres : CalcResult) (now : ℚ)
    (s : ETAState) (c : Cut) (e : PyError)
    (h : K.clip_file s.cut s.records_per_cut .none s.timeout = .some c)
    (hr : K.run (.some c)
      (if s.mode = .accumulation then s.context else .none) = .error e) :
    (_update_eta_evaluation K cres now s).1 =
      .error (e, { s with cut := .some c }) := by
  simp only [_update_eta_evaluation, h, hr]

/-- Outcome of `update()` when `calculate_result` raises. -/
theorem update_eval_calc_error (K : Kernel) (cres : CalcResult) (now : ℚ)
    (s : ETAState) (c : Cut) (r : KResult) (ctx : Context) (e : PyError)
    (h : K.clip_file s.cut s.records_per_cut .none s.timeout = .some c)
    (hr : K.run (.some c)
      (if s.mode = .accumulation then s.context else .none) = .ok (r, ctx))
    (hc : cres r = .error e) :
    (_update_eta_evaluation K cres now s).1 =
      .error (e, { s with cut := .some c, context := .some ctx }) := by
  simp only [_update_eta_evaluation, h, hr, hc]

/-- Outcome of `update()` when the derived y-sequence is empty, so
`np.amax` raises: `xdata`/`ydata` were already reassigned, but `max_value`,
`y_max` and `lastupdate` were not. -/
theorem update_eval_amax_error (K : Kernel) (cres : CalcResult) (now : ℚ)
    (s : ETAState) (c : Cut) (r : KResult) (ctx : Context) (x y : List ℚ)
    (e : PyError)
    (h : K.clip_file s.cut s.records_per_cut .none s.timeout = .some c)
    (hr : K.run (.some c)
      (if s.mode = .accumulation then s.context else .none) = .ok (r, ctx))
    (hc : cres r = .ok (x, y)) (hy : np_amax y = .error e) :
    (_update_eta_evaluation K cres now s).1 =
      .error (e, { s with
                    cut := .some c, context := .some ctx,
                    xdata := .some x, ydata := .some y }) := by
  simp only [_update_eta_evaluation, h, hr, hc, hy]

/-- Outcome of a fully successful `update()` that consumed new data. -/
theorem update_eval_ok (K : Kernel) (cres : CalcResult) (now : ℚ)
    (s : ETAState) (c : Cut) (r : KResult) (ctx : Context) (x y : List ℚ)
    (m : ℚ)
    (h : K.clip_file s.cut s.records_per_cut .none s.timeout = .some c)
    (hr : K.run (.some c)
      (if s.mode = .accumulation then s.context else .none) = .ok (r, ctx))
    (hc : cres r = .ok (x, y)) (hy : np_amax y = .ok m) :
    (_update_eta_evaluation K cres now s).1 =
      .ok ({ s with
              cut := .some c, context := .some ctx, xdata := .some x,
              ydata := .some y, max_value := .some m,
              y_max := .some (m * (3/2)), lastupdate := .some now },
           .none) := by
  simp only [_update_eta_evaluation, h, hr, hc, hy]

/-- C3 (confirmed): when the cut tracker reports no new data, `update()`
performs no kernel evaluation (its call trace is the single clip request),
leaves the entire state — the snapshot fields `xdata`, `ydata`,
`max_value`, `y_max`, `lastupdate`, the stored context and the stored cut —
unchanged, and returns the `None` "no new data" indicator; repeating the
poll any number of times keeps the state fixed. -/
theorem C3_noop_polls (K : Kernel) (cres : CalcResult) (now : ℚ)
    (s : ETAState)
    (h : K.clip_file s.cut s.records_per_cut .none s.timeout = .none) :
    _update_eta_evaluation K cres now s =
      (.ok (s, .none), [KCall.clip s.cut s.records_per_cut .none s.timeout])
    ∧ ∀ n : ℕ, (update_state K cres now)^[n] s = s := by
  have h1 := update_eval_none K cres now s h
  refine ⟨h1, fun n => Function.iterate_fixed ?_ n⟩
  unfold update_state
  rw [h1]

/-- C3 witness: the no-op poll theorem at the concrete instance `s0C` with
a kernel reporting no new data. -/
theorem C3_noop_polls_witness :
    _update_eta_evaluation KnoneDemo calcDemo 0 s0C =
      (.ok (s0C, .none),
       [KCall.clip s0C.cut s0C.records_per_cut .none s0C.timeout])
    ∧ ∀ n : ℕ, (update_state KnoneDemo calcDemo 0)^[n] s0C = s0C :=
  C3_noop_polls KnoneDemo calcDemo 0 s0C rfl

/-- C9 (confirmed): every snapshot computed by a successful `run()` or by a
successful `update()` that consumed new data stores as `max_value` the
maximum of the y-sequence (a member of it bounding every element) and
stores `y_max` equal to exactly 1.5 times that maximum. -/
theorem C9_scaling_invariant (K : Kernel) (cres : CalcResult) (now : ℚ)
    (s : ETAState) :
    (∀ s' v, (_run_eta_evaluation K cres now s).1 = .ok (s', v) →
      ∃ l m, s'.ydata = .some l ∧ s'.max_value = .some m ∧ m ∈ l ∧
        (∀ y ∈ l, y ≤ m) ∧ s'.y_max = .some (m * (3/2)))
  ∧ (∀ s' v c,
      K.clip_file s.cut s.records_per_cut .none s.timeout = .some c →
      (_update_eta_evaluation K cres now s).1 = .ok (s', v) →
      ∃ l m, s'.ydata = .some l ∧ s'.max_value = .some m ∧ m ∈ l ∧
        (∀ y ∈ l, y ≤ m) ∧ s'.y_max = .some (m * (3/2))) := by
  constructor
  · intro s' v h
    rcases hK : K.run (K.clip_file .none s.existing_records .none (1/2)) .none
      with e | ⟨r, ctx⟩
    · rw [run_eval_kernel_error K cres now s e hK] at h
      exact absurd h (by simp)
    · rcases hc : cres r with e | ⟨x, y⟩
      · rw [run_eval_calc_error K cres now s r ctx e hK hc] at h
        exact absurd h (by simp)
      · rcases hy : np_amax y with e | m
        · rw [run_eval_amax_error K cres now s r ctx x y e hK hc hy] at h
          exact absurd h (by simp)
        · rw [run_eval_ok K cres now s r ctx x y m hK hc hy] at h
          simp only [Except.ok.injEq, Prod.mk.injEq] at h
          obtain ⟨hs, -⟩ := h
          subst hs
          exact ⟨y, m, rfl, rfl, (np_amax_spec y m hy).1,
            (np_amax_spec y m hy).2, rfl⟩
  · intro s' v c hclip h
    rcases hK : K.run (.some c)
        (if s.mode = .accumulation then s.context else .none)
      with e | ⟨r, ctx⟩
    · rw [update_eval_kernel_error K cres now s c e hclip hK] at h
      exact absurd h (by simp)
    · rcases hc : cres r with e | ⟨x, y⟩
      · rw [update_eval_calc_error K cres now s c r ctx e hclip hK hc] at h
        exact absurd h (by simp)
      · rcases hy : np_amax y with e | m
        · rw [update_eval_amax_error K cres now s c r ctx x y e hclip hK hc hy] at h
          exact absurd h (by simp)
        · rw [update_eval_ok K cres now s c r ctx x y m hclip hK hc hy] at h
          simp only [Except.ok.injEq, Prod.mk.injEq] at h
          obtain ⟨hs, -⟩ := h
          subst hs
          exact ⟨y, m, rfl, rfl, (np_amax_spec y m hy).1,
            (np_amax_spec y m hy).2, rfl⟩

/-- C9 witness: the scaling invariant read off the concrete successful
`run()` reaching `sRunC`, whose y-sequence is `[3, 7]`. -/
theorem C9_scaling_invariant_witness :
    ∃ l m, sRunC.ydata = .some l ∧ sRunC.max_value = .some m ∧ m ∈ l ∧
      (∀ y ∈ l, y ≤ m) ∧ sRunC.y_max = .some (m * (3/2)) :=
  (C9_scaling_invariant KrunDemo calcDemo 1 s0C).1 sRunC .none (by rfl)

/-- C5 (confirmed): if the kernel evaluation `eta.run` raises during
`run()` or during an `update()` that consumed new data, the exception
propagates uncaught to the caller (no retry, no swallowing), and the
previously stored snapshot fields `xdata`, `ydata`, `max_value`, `y_max`
and `lastupdate` are all unchanged — the prior snapshot stays the last
valid one. -/
theorem C5_kernel_error_propagates (K : Kernel) (cres : CalcResult)
    (now : ℚ) (s : ETAState) (e : PyError) :
    (K.run (K.clip_file .none s.existing_records .none (1/2)) .none =
        .error e →
      ∃ s1, (_run_eta_evaluation K cres now s).1 = .error (e, s1) ∧
        s1.xdata = s.xdata ∧ s1.ydata = s.ydata ∧
        s1.max_value = s.max_value ∧ s1.y_max = s.y_max ∧
        s1.lastupdate = s.lastupdate)
  ∧ (∀ c, K.clip_file s.cut s.records_per_cut .none s.timeout = .some c →
      K.run (.some c)
          (if s.mode = .accumulation then s.context else .none) = .error e →
      ∃ s1, (_update_eta_evaluation K cres now s).1 = .error (e, s1) ∧
        s1.xdata = s.xdata ∧ s1.ydata = s.ydata ∧
        s1.max_value = s.max_value ∧ s1.y_max = s.y_max ∧
        s1.lastupdate = s.lastupdate) := by
  constructor
  · intro hr
    exact ⟨_, run_eval_kernel_error K cres now s e hr,
      rfl, rfl, rfl, rfl, rfl⟩
  · intro c h hr
    exact ⟨_, update_eval_kernel_error K cres now s c e h hr,
      rfl, rfl, rfl, rfl, rfl⟩

/-- C5 witness: the propagation theorem at the concrete instance `s0C` with
a kernel whose evaluation raises. -/
theorem C5_kernel_error_propagates_witness :
    (∃ s1, (_run_eta_evaluation KerrDemo calcDemo 9 s0C).1 =
        .error (.kernelError 5, s1) ∧
      s1.xdata = s0C.xdata ∧ s1.ydata = s0C.ydata ∧
      s1.max_value = s0C.max_value ∧ s1.y_max = s0C.y_max ∧
      s1.lastupdate = s0C.lastupdate)
  ∧ (∃ s1, (_update_eta_evaluation KerrDemo calcDemo 9 s0C).1 =
        .error (.kernelError 5, s1) ∧
      s1.xdata = s0C.xdata ∧ s1.ydata = s0C.ydata ∧
      s1.max_value = s0C.max_value ∧ s1.y_max = s0C.y_max ∧
      s1.lastupdate = s0C.lastupdate) :=
  ⟨(C5_kernel_error_propagates KerrDemo calcDemo 9 s0C (.kernelError 5)).1
      rfl,
   (C5_kernel_error_propagates KerrDemo calcDemo 9 s0C (.kernelError 5)).2
      cutB rfl rfl⟩

/-- C8 (confirmed): when the result derivation yields an empty y-sequence,
computing the snapshot's maximum raises a `ValueError` (from `np.amax`)
during `run()` or `update()`, so the call fails rather than storing a
degenerate maximum: `max_value` and `y_max` are left unchanged, never
silently set to zero. -/
theorem C8_empty_y_errors (K : Kernel) (cres : CalcResult) (now : ℚ)
    (s : ETAState) :
    (∀ r ctx x,
      K.run (K.clip_file .none s.existing_records .none (1/2)) .none =
        .ok (r, ctx) →
      cres r = .ok (x, []) →
      ∃ s1, (_run_eta_evaluation K cres now s).1 =
          .error (.valueError
            ("zero-size array to reduction operation maximum"), s1) ∧
        s1.max_value = s.max_value ∧ s1.y_max = s.y_max)
  ∧ (∀ c r ctx x,
      K.clip_file s.cut s.records_per_cut .none s.timeout = .some c →
      K.run (.some c)
          (if s.mode = .accumulation then s.context else .none) =
        .ok (r, ctx) →
      cres r = .ok (x, []) →
      ∃ s1, (_update_eta_evaluation K cres now s).1 =
          .error (.valueError
            ("zero-size array to reduction operation maximum"), s1) ∧
        s1.max_value = s.max_value ∧ s1.y_max = s.y_max) := by
  constructor
  · intro r ctx x hr hc
    exact ⟨_, run_eval_amax_error K cres now s r ctx x [] _ hr hc rfl,
      rfl, rfl⟩
  · intro c r ctx x h hr hc
    exact ⟨_, update_eval_amax_error K cres now s c r ctx x [] _ h hr hc rfl,
      rfl, rfl⟩

/-- C8 witness: the empty-y-sequence theorem at the concrete instance `s0C`
with a specialization deriving empty arrays. -/
theorem C8_empty_y_errors_witness :
    (∃ s1, (_run_eta_evaluation KrunDemo calcEmptyY 9 s0C).1 =
        .error (.valueError
          ("zero-size array to reduction operation maximum"), s1) ∧
      s1.max_value = s0C.max_value ∧ s1.y_max = s0C.y_max)
  ∧ (∃ s1, (_update_eta_evaluation KrunDemo calcEmptyY 9 s0C).1 =
        .error (.valueError
          ("zero-size array to reduction operation maximum"), s1) ∧
      s1.max_value = s0C.max_value ∧ s1.y_max = s0C.y_max) :=
  ⟨(C8_empty_y_errors KrunDemo calcEmptyY 9 s0C).1 0 1 [] rfl rfl,
   (C8_empty_y_errors KrunDemo calcEmptyY 9 s0C).2 demoCut 0 1 [] rfl rfl
     rfl⟩

/-
Inversion lemmas for construction.
-/

/-- A state produced by `ETAResult_init` is in accumulation mode with no
stored context. -/
theorem init_mode_context (K0 : Kernel) (sizes : FileSamples)
    (rpc : Option Int) (intervalA tmoA : ℚ) (sg : Bool) (s0 : ETAState)
    (hinit : ETAResult_init K0 sizes rpc intervalA tmoA sg = .ok s0) :
    s0.mode = .accumulation ∧ s0.context = .none := by
  unfold ETAResult_init at hinit
  rcases hI : _inspect_file K0 sizes rpc intervalA sg
    with e | ⟨cut, gr, rpcv, er⟩
  · rw [hI] at hinit
    exact absurd hinit (by simp)
  · rw [hI] at hinit
    simp only [Except.ok.injEq] at hinit
    subst hinit
    exact ⟨rfl, rfl⟩

/-- A successful `inspect_existing_records` without simulated growth
computes the floor-division record count of lines 71-73. -/
theorem inspect_existing_records_ok (c0 : Cut) (z rpc0 er0 : Int)
    (h : inspect_existing_records (.some c0) z rpc0 false = .ok er0) :
    er0 = (z - c0.fseekpoint).fdiv c0.BytesofRecords := by
  by_cases hB : c0.BytesofRecords = 0
  · simp [inspect_existing_records, hB] at h
  · simp [inspect_existing_records, hB] at h
    exact h.symm

/-- When construction succeeds without simulated growth, the
`existing_records` field is the number of complete records present in the
file at inspection time. -/
theorem init_existing_records (K0 : Kernel) (sizes : FileSamples)
    (rpc : Option Int) (intervalA tmoA : ℚ) (c0 : Cut) (s0 : ETAState)
    (hclip0 : K0.clip_file .none 1 (.some (-1)) 0 = .some c0)
    (hinit : ETAResult_init K0 sizes rpc intervalA tmoA false = .ok s0) :
    s0.existing_records = complete_records sizes.inspect c0 := by
  unfold ETAResult_init at hinit
  rcases hI : _inspect_file K0 sizes rpc intervalA false
    with e | ⟨cut, gr, rpcv, er⟩
  · rw [hI] at hinit
    exact absurd hinit (by simp)
  rw [hI] at hinit
  simp only [Except.ok.injEq] at hinit
  subst hinit
  show er = complete_records sizes.inspect c0
  simp only [_inspect_file, hclip0] at hI
  rcases rpc with _ | rpcx
  · rcases hE : _estimate_growth sizes.est_old sizes.est_new
        c0.BytesofRecords intervalA with e | ⟨gr0, rpc0⟩
    · simp only [hE] at hI
      exact absurd hI (by simp)
    · simp only [hE] at hI
      rcases hR : inspect_existing_records (.some c0) sizes.inspect rpc0
          false with e | er0
      · simp only [hR] at hI
        exact absurd hI (by simp)
      · simp only [hR, Except.ok.injEq, Prod.mk.injEq] at hI
        exact hI.2.2.2 ▸ inspect_existing_records_ok c0 _ _ _ hR
  · rcases hR : inspect_existing_records (.some c0) sizes.inspect rpcx
        false with e | er0
    · simp only [hR] at hI
      exact absurd hI (by simp)
    · simp only [hR, Except.ok.injEq, Prod.mk.injEq] at hI
      exact hI.2.2.2 ▸ inspect_existing_records_ok c0 _ _ _ hR

/-- C2 (corrected): `update()` performs no initialization check.  On any
state produced by construction alone — on which `run()` has not executed —
`update()` proceeds: its first kernel call is the cut request continuing
from the inspection cut, the constructed state carries `context = None`,
and whenever the cut tracker returns new data the kernel evaluation is
invoked with `resume_task = None`; no "not initialized" error exists in the
code. -/
theorem C2_update_before_run_proceeds (K0 K : Kernel) (sizes : FileSamples)
    (rpc : Option Int) (intervalA tmoA : ℚ) (sg : Bool) (s : ETAState)
    (cres : CalcResult) (now : ℚ)
    (hinit : ETAResult_init K0 sizes rpc intervalA tmoA sg = .ok s) :
    ((_update_eta_evaluation K cres now s).2).head? =
        .some (KCall.clip s.cut s.records_per_cut .none s.timeout)
  ∧ s.context = .none
  ∧ s.mode = .accumulation
  ∧ (∀ c, K.clip_file s.cut s.records_per_cut .none s.timeout = .some c →
      (_update_eta_evaluation K cres now s).2 =
        [KCall.clip s.cut s.records_per_cut .none s.timeout,
         KCall.runK (.some c) .none]) := by
  obtain ⟨hmode, hctx⟩ :=
    init_mode_context K0 sizes rpc intervalA tmoA sg s hinit
  refine ⟨?_, hctx, hmode, ?_⟩
  · rcases hc : K.clip_file s.cut s.records_per_cut .none s.timeout
      with _ | c
    · rw [update_eval_none K cres now s hc]
      rfl
    · rw [update_eval_calls K cres now s c hc]
      rfl
  · intro c hc
    have htr := update_eval_calls K cres now s c hc
    rw [hmode] at htr
    simpa [hctx] using htr

/-- C2 counterexample: from the freshly constructed state `s0C` — `run()`
has not executed, the construction stored `context = None` — a poll that
finds new data returns normally, after requesting a cut and invoking the
kernel, instead of failing fast with a "not initialized" error. -/
theorem C2_counterexample :
    ETAResult_init initK demoSizes (.some 3) (1/10) (1/5) false = .ok s0C
  ∧ (_update_eta_evaluation KalignDemo calcDemo 4 s0C).1 =
      .ok (update_state KalignDemo calcDemo 4 s0C, .none)
  ∧ (_update_eta_evaluation KalignDemo calcDemo 4 s0C).2 =
      [KCall.clip s0C.cut s0C.records_per_cut .none s0C.timeout,
       KCall.runK (.some cutB) .none] :=
  ⟨rfl, rfl, rfl⟩

/-- C2 witness: the corrected theorem at the concrete construction
producing `s0C`. -/
theorem C2_update_before_run_proceeds_witness :
    ((_update_eta_evaluation KaccDemo calcDemo 4 s0C).2).head? =
        .some (KCall.clip s0C.cut s0C.records_per_cut .none s0C.timeout)
  ∧ s0C.context = .none
  ∧ s0C.mode = .accumulation
  ∧ (∀ c, KaccDemo.clip_file s0C.cut s0C.records_per_cut .none s0C.timeout =
        .some c →
      (_update_eta_evaluation KaccDemo calcDemo 4 s0C).2 =
        [KCall.clip s0C.cut s0C.records_per_cut .none s0C.timeout,
         KCall.runK (.some c) .none]) :=
  C2_update_before_run_proceeds initK KaccDemo demoSizes (.some 3) (1/10)
    (1/5) false s0C calcDemo 4 rfl

/-- C4 (corrected): every `run()` makes exactly one clip request — with
`modify_clip=None` (from the beginning of the file), `read_events =
self.existing_records` and `wait_timeout = 0.5` — and exactly one kernel
evaluation with `resume_task=None`; on success it stores the returned
context and recomputes the whole snapshot.  The record count requested,
however, is `existing_records` as computed once at construction by
`_inspect_file` — the number of complete records existing at inspection
time — not the number existing at the time of the `run()` call. -/
theorem C4_run_full (K : Kernel) (cres : CalcResult) (now : ℚ)
    (s : ETAState) :
    (_run_eta_evaluation K cres now s).2 =
      [KCall.clip .none s.existing_records .none (1/2),
       KCall.runK (K.clip_file .none s.existing_records .none (1/2)) .none]
  ∧ (∀ r ctx x y m,
      K.run (K.clip_file .none s.existing_records .none (1/2)) .none =
        .ok (r, ctx) →
      cres r = .ok (x, y) → np_amax y = .ok m →
      (_run_eta_evaluation K cres now s).1 =
        .ok ({ s with
                cut := K.clip_file .none s.existing_records .none (1/2),
                context := .some ctx, xdata := .some x, ydata := .some y,
                lastupdate := .some now, max_value := .some m,
                y_max := .some (m * (3/2)) }, .none))
  ∧ (∀ K0 sizes rpc intervalA tmoA c0 s0,
      K0.clip_file .none 1 (.some (-1)) 0 = .some c0 →
      ETAResult_init K0 sizes rpc intervalA tmoA false = .ok s0 →
      s0.existing_records = complete_records sizes.inspect c0) := by
  refine ⟨run_eval_calls K cres now s, ?_, ?_⟩
  · intro r ctx x y m hr hc hy
    exact run_eval_ok K cres now s r ctx x y m hr hc hy
  · intro K0 sizes rpc intervalA tmoA c0 s0 hclip0 hinit
    exact init_existing_records K0 sizes rpc intervalA tmoA c0 s0 hclip0
      hinit

/-- C4 counterexample: the instance constructed over a 50-byte file has
`existing_records = 5`, and a later `run()` requests exactly 5 records —
even though at `run()` time the file has grown to 100 bytes, i.e. 10
complete records exist; the request does not cover all records existing at
the time of the call. -/
theorem C4_counterexample :
    ETAResult_init initK demoSizes (.some 3) (1/10) (1/5) false = .ok s0C
  ∧ s0C.existing_records = 5
  ∧ ((_run_eta_evaluation KrunDemo calcDemo 6 s0C).2).head? =
      .some (KCall.clip .none 5 .none (1/2))
  ∧ complete_records 100 demoCut = 10
  ∧ (5 : Int) ≠ 10 :=
  ⟨rfl, rfl, rfl, rfl, by decide⟩

/-- C4 witness: the corrected `run()` theorem at the concrete instance
`s0C`, with the construction link instantiated at `initK`/`demoSizes`. -/
theorem C4_run_full_witness :
    (_run_eta_evaluation KrunDemo calcDemo 1 s0C).2 =
      [KCall.clip .none s0C.existing_records .none (1/2),
       KCall.runK (KrunDemo.clip_file .none s0C.existing_records .none (1/2))
         .none]
  ∧ (_run_eta_evaluation KrunDemo calcDemo 1 s0C).1 =
      .ok ({ s0C with
              cut := KrunDemo.clip_file .none s0C.existing_records .none
                (1/2),
              context := .some 1, xdata := .some [0, 1],
              ydata := .some [3, 7], lastupdate := .some 1,
              max_value := .some 7, y_max := .some (7 * (3/2)) }, .none)
  ∧ s0C.existing_records = complete_records demoSizes.inspect demoCut :=
  ⟨(C4_run_full KrunDemo calcDemo 1 s0C).1,
   (C4_run_full KrunDemo calcDemo 1 s0C).2.1 0 1 [0, 1] [3, 7] 7 rfl rfl
     rfl,
   (C4_run_full KrunDemo calcDemo 1 s0C).2.2 initK demoSizes (.some 3)
     (1/10) (1/5) demoCut s0C rfl rfl⟩

/-- C1 (corrected): an align-mode `update()` that consumes new data invokes
the kernel with no resume context, but the context the kernel RETURNS for
that align window replaces the stored one (line 134 assigns `self.context`
unconditionally).  Hence after `set_accumulation_mode()`, the next
`update()` that consumes new data passes that align-poll context — not the
context `run()` stored — as its resume context. -/
theorem C1_align_context_replaces_stored (K1 K2 : Kernel)
    (cres1 cres2 : CalcResult) (now1 now2 : ℚ) (s : ETAState) (c1 : Cut)
    (r : KResult) (ctxA : Context) (x y : List ℚ) (m : ℚ)
    (hmode : s.mode = .align)
    (hclip1 : K1.clip_file s.cut s.records_per_cut .none s.timeout =
      .some c1)
    (hrun1 : K1.run (.some c1) .none = .ok (r, ctxA))
    (hcalc : cres1 r = .ok (x, y))
    (hmax : np_amax y = .ok m) :
    ∃ s1, (_update_eta_evaluation K1 cres1 now1 s).1 = .ok (s1, .none)
      ∧ (_update_eta_evaluation K1 cres1 now1 s).2 =
          [KCall.clip s.cut s.records_per_cut .none s.timeout,
           KCall.runK (.some c1) .none]
      ∧ s1.context = .some ctxA
      ∧ ∀ c2, K2.clip_file s1.cut s1.records_per_cut .none s1.timeout =
            .some c2 →
          (_update_eta_evaluation K2 cres2 now2
              (set_accumulation_mode s1)).2 =
            [KCall.clip s1.cut s1.records_per_cut .none s1.timeout,
             KCall.runK (.some c2) (.some ctxA)] := by
  have hif : (if s.mode = .accumulation then s.context else .none) =
      (.none : Option Context) := by
    rw [hmode]
    rfl
  have hrun1' : K1.run (.some c1)
      (if s.mode = .accumulation then s.context else .none) =
      .ok (r, ctxA) := by
    rw [hif]
    exact hrun1
  have hok := update_eval_ok K1 cres1 now1 s c1 r ctxA x y m hclip1 hrun1'
    hcalc hmax
  have htr := update_eval_calls K1 cres1 now1 s c1 hclip1
  rw [hif] at htr
  refine ⟨{ s with
             cut := .some c1, context := .some ctxA, xdata := .some x,
             ydata := .some y, max_value := .some m,
             y_max := .some (m * (3/2)), lastupdate := .some now1 },
          hok, htr, rfl, ?_⟩
  intro c2 hclip2
  have htr2 := update_eval_calls K2 cres2 now2
    (set_accumulation_mode { s with
      cut := .some c1, context := .some ctxA, xdata := .some x,
      ydata := .some y, max_value := .some m,
      y_max := .some (m * (3/2)), lastupdate := .some now1 }) c2 hclip2
  exact htr2

/-- C1 counterexample: a concrete trace — successful `run()` stores
context token 1; an align-mode `update()` with new data runs the kernel
with no resume context but stores the returned context token 2;
`set_accumulation_mode()`; then the next `update()` with new data passes
resume context 2, the align poll's context, and not the context 1 that
`run()` stored. -/
theorem C1_counterexample :
    (_run_eta_evaluation KrunDemo calcDemo 1 s0C).1 = .ok (sRunC, .none)
  ∧ sRunC.context = .some 1
  ∧ (_update_eta_evaluation KalignDemo calcDemo 2
        (set_alignment_mode sRunC)).1 = .ok (sAlignC, .none)
  ∧ (_update_eta_evaluation KalignDemo calcDemo 2
        (set_alignment_mode sRunC)).2 =
      [KCall.clip sRunC.cut sRunC.records_per_cut .none sRunC.timeout,
       KCall.runK (.some cutB) .none]
  ∧ (_update_eta_evaluation KaccDemo calcDemo 3
        (set_accumulation_mode sAlignC)).2 =
      [KCall.clip sAlignC.cut sAlignC.records_per_cut .none
         sAlignC.timeout,
       KCall.runK (.some cutB2) (.some 2)]
  ∧ (.some 2 : Option Context) ≠ sRunC.context :=
  ⟨rfl, rfl, rfl, rfl, rfl, by decide⟩

/-- C1 witness: the corrected mode-switching theorem at the concrete
align-mode state reached from `sRunC`. -/
theorem C1_align_context_replaces_stored_witness :
    ∃ s1, (_update_eta_evaluation KalignDemo calcDemo 2
        (set_alignment_mode sRunC)).1 = .ok (s1, .none)
      ∧ (_update_eta_evaluation KalignDemo calcDemo 2
            (set_alignment_mode sRunC)).2 =
          [KCall.clip (set_alignment_mode sRunC).cut
             (set_alignment_mode sRunC).records_per_cut .none
             (set_alignment_mode sRunC).timeout,
           KCall.runK (.some cutB) .none]
      ∧ s1.context = .some 2
      ∧ ∀ c2, KaccDemo.clip_file s1.cut s1.records_per_cut .none
            s1.timeout = .some c2 →
          (_update_eta_evaluation KaccDemo calcDemo 3
              (set_accumulation_mode s1)).2 =
            [KCall.clip s1.cut s1.records_per_cut .none s1.timeout,
             KCall.runK (.some c2) (.some 2)] :=
  C1_align_context_replaces_stored KalignDemo KaccDemo calcDemo calcDemo
    2 3 (set_alignment_mode sRunC) cutB 0 2 [0, 1] [3, 7] 7 rfl rfl rfl
    rfl rfl

/-- C7 (corrected): with no configured `records_per_cut`,
`_estimate_growth` computes `growth_rate = (size_after − size_before) /
record_size_in_bytes` from the two samples, but the recommended
records-per-poll is `int(growth_rate * interval)` — truncation toward
zero — which agrees with `floor` exactly when the product is nonnegative
(so a non-growing file yields zero as claimed), but not in general when
the file shrank between samples. -/
theorem C7_estimate_growth_truncates (file_size_old file_size_new
    BytesofRecords : Int) (interval : ℚ)
    (h : BytesofRecords ≠ 0) :
    _estimate_growth file_size_old file_size_new BytesofRecords interval =
      .ok (((file_size_new - file_size_old : Int) : ℚ) /
             (BytesofRecords : ℚ),
           pyInt ((((file_size_new - file_size_old : Int) : ℚ) /
             (BytesofRecords : ℚ)) * interval))
  ∧ (0 ≤ (((file_size_new - file_size_old : Int) : ℚ) /
        (BytesofRecords : ℚ)) * interval →
      pyInt ((((file_size_new - file_size_old : Int) : ℚ) /
          (BytesofRecords : ℚ)) * interval) =
        ⌊(((file_size_new - file_size_old : Int) : ℚ) /
          (BytesofRecords : ℚ)) * interval⌋) := by
  constructor
  · unfold _estimate_growth
    rw [if_neg h]
  · intro hpos
    unfold pyInt
    rw [if_pos hpos]

/-- C7 counterexample: samples 100 → 75 bytes with 10-byte records and
`interval = 0.1` give `growth_rate = -2.5` and a product of `-0.25`; the
code stores `int(-0.25) = 0`, while the claimed `floor(-0.25)` is `-1`. -/
theorem C7_counterexample :
    _estimate_growth 100 75 10 (1/10) = .ok (-5/2, 0)
  ∧ ⌊((-5 : ℚ)/2) * (1/10)⌋ = -1
  ∧ (0 : Int) ≠ -1 := by
  refine ⟨?_, ?_, by decide⟩
  · unfold _estimate_growth pyInt
    norm_num
  · norm_num

/-- C7 witness: a growing file, 0 → 1000 bytes with 10-byte records and
`interval = 0.1`: growth rate 100 records per second, 10 records per poll,
where truncation and floor agree. -/
theorem C7_estimate_growth_truncates_witness :
    _estimate_growth 0 1000 10 (1/10) = .ok (100, 10)
  ∧ pyInt ((100 : ℚ) * (1/10)) = ⌊(100 : ℚ) * (1/10)⌋ := by
  have h := C7_estimate_growth_truncates 0 1000 10 (1/10) (by decide)
  constructor
  · rw [h.1]
    norm_num [pyInt]
  · have h2 := h.2 (by norm_num)
    calc pyInt ((100 : ℚ) * (1/10))
        = pyInt ((((1000 - 0 : Int) : ℚ) / ((10 : Int) : ℚ)) * (1/10)) := by
          norm_num
      _ = ⌊(((1000 - 0 : Int) : ℚ) / ((10 : Int) : ℚ)) * (1/10)⌋ := h2
      _ = ⌊(100 : ℚ) * (1/10)⌋ := by norm_num

/-- C6 (code bug): the index search of lines 18-20 would pick the smallest
free zero-padded index — with `foo_bar_000.txt` and `foo_bar_001.txt`
present it would write `foo_bar_002.txt` — but `save_data` never reaches
it: the unresolved name `Path` raises a `NameError` on line 13, before the
directory is created or any file written. -/
theorem C6_save_data_uniqueness_unreachable :
    save_data ⟨[], ["out/foo_bar_000.txt", "out/foo_bar_001.txt"]⟩ [1] [2]
        ("foo.dat") ("out") ("bar") .none =
      (⟨[], ["out/foo_bar_000.txt", "out/foo_bar_001.txt"]⟩,
       .error (.nameError ("Path")))
  ∧ save_data_body ⟨[], ["out/foo_bar_000.txt", "out/foo_bar_001.txt"]⟩
        ("foo.dat") ("out") ("bar") =
      (⟨["out"], ["out/foo_bar_002.txt", "out/foo_bar_000.txt",
          "out/foo_bar_001.txt"]⟩,
       .ok ("out/foo_bar_002.txt")) :=
  ⟨rfl, rfl⟩

/-- C10 (confirmed): every `save_data` call raises `NameError` on its
first statement — the module never imports `Path` — so the filesystem
comes back unchanged: no directory is created and no file is ever
written. -/
theorem C10_save_data_always_namerror (fs : FS) (xdata ydata : List ℚ)
    (data_file result_path label : String) (header : Option String) :
    save_data fs xdata ydata data_file result_path label header =
      (fs, .error (.nameError ("Path"))) := by
  have h : name_defined ("Path") = false := by decide
  simp [save_data, h]

end ETA
